import Mathlib

/-!
# Verification of `config.h` (ESP32 massage-chair controller)

The header consists of object-like macros (named constants) and six
function-like macros that write to the Arduino `Serial` console.  The
constants are embedded with the values the preprocessor substitutes; the
macros are embedded as state-passing functions over the console sink.
-/

namespace Config

/-! ## Hardware pins (config.h, lines 14-23) -/

def MASSAGE_MOTOR_1_PIN : Int := 2
def MASSAGE_MOTOR_2_PIN : Int := 4
def MASSAGE_MOTOR_3_PIN : Int := 5
def MASSAGE_MOTOR_4_PIN : Int := 18

def LED_STATUS_PIN : Int := 2
def BUTTON_START_PIN : Int := 19
def BUTTON_STOP_PIN : Int := 21

/-- The seven peripherals the header assigns a GPIO pin to. -/
inductive Peripheral where
  | motor1
  | motor2
  | motor3
  | motor4
  | statusLed
  | buttonStart
  | buttonStop
  deriving DecidableEq, Repr

/-- The pin macro that belongs to each peripheral. -/
def pinOf : Peripheral → Int
  | .motor1 => MASSAGE_MOTOR_1_PIN
  | .motor2 => MASSAGE_MOTOR_2_PIN
  | .motor3 => MASSAGE_MOTOR_3_PIN
  | .motor4 => MASSAGE_MOTOR_4_PIN
  | .statusLed => LED_STATUS_PIN
  | .buttonStart => BUTTON_START_PIN
  | .buttonStop => BUTTON_STOP_PIN

/-- All seven pin assignments, in the order the header lists them. -/
def allPins : List Int :=
  [MASSAGE_MOTOR_1_PIN, MASSAGE_MOTOR_2_PIN, MASSAGE_MOTOR_3_PIN, MASSAGE_MOTOR_4_PIN,
   LED_STATUS_PIN, BUTTON_START_PIN, BUTTON_STOP_PIN]

/-! ## System defaults (lines 35-42) -/

def DEFAULT_MASSAGE_DURATION : Int := 900000
def DEFAULT_DURATION : Int := 900

/-! ## Debug switch (line 72) and motor bound (line 97) -/

def DEBUG_MODE : Bool := true
def MAX_MOTOR_INTENSITY : Int := 255

/-! ## Preferences namespace and keys (lines 117-129) -/

def PREFERENCES_NAMESPACE : String := "poltrona"

def KEY_POLTRONA_ID : String := "poltronaId"
def KEY_WIFI_SSID : String := "wifiSSID"
def KEY_WIFI_PASSWORD : String := "wifiPassword"
def KEY_SUPABASE_URL : String := "supabaseUrl"
def KEY_SUPABASE_KEY : String := "supabaseKey"
def KEY_PIX_KEY : String := "pixKey"
def KEY_PRICE : String := "price"
def KEY_DURATION : String := "duration"
def KEY_LOCATION : String := "location"
def KEY_ACTIVE : String := "active"

/-- The ten key macros, in the order the header lists them. -/
def allKeys : List String :=
  [KEY_POLTRONA_ID, KEY_WIFI_SSID, KEY_WIFI_PASSWORD, KEY_SUPABASE_URL, KEY_SUPABASE_KEY,
   KEY_PIX_KEY, KEY_PRICE, KEY_DURATION, KEY_LOCATION, KEY_ACTIVE]

/-- The entry of the key-value store a key addresses: the namespace paired
with the key string. -/
def storeEntry (key : String) : String × String :=
  (PREFERENCES_NAMESPACE, key)

/-! ## LED blink periods (lines 147-149) and button timing (lines 156-159) -/

def LED_BLINK_FAST : Int := 200
def LED_BLINK_SLOW : Int := 1000
def LED_BLINK_NORMAL : Int := 500

def BUTTON_DEBOUNCE_TIME : Int := 50
def BUTTON_MIN_PRESS_TIME : Int := 100

/-! ## Log levels (lines 176-182) -/

def LOG_LEVEL_ERROR : Int := 0
def LOG_LEVEL_WARNING : Int := 1
def LOG_LEVEL_INFO : Int := 2
def LOG_LEVEL_DEBUG : Int := 3

def CURRENT_LOG_LEVEL : Int := LOG_LEVEL_INFO

/-! ## Console sink

`Serial` belongs to the Arduino core, not to this header.  The sink records
the sequence of write calls the macros make on it, with the text passed. -/

/-- One write call on the console. -/
inductive SerialOp where
  | print (text : String)
  | println (text : String)
  deriving DecidableEq, Repr

/-- The console sink: every write call made so far, oldest first. -/
abbrev Sink := List SerialOp

/-- The call `Serial.print(x)`. -/
def Serial_print (x : String) (sink : Sink) : Sink :=
  sink ++ [SerialOp.print x]

/-- The call `Serial.println(x)`. -/
def Serial_println (x : String) (sink : Sink) : Sink :=
  sink ++ [SerialOp.println x]

/-- The two compile-time switches the macros of lines 189-201 read. -/
structure Build where
  DEBUG_MODE : Bool
  CURRENT_LOG_LEVEL : Int
  deriving DecidableEq, Repr

/-- The build the header ships: `DEBUG_MODE true`, `CURRENT_LOG_LEVEL LOG_LEVEL_INFO`. -/
def shipped : Build :=
  { DEBUG_MODE := DEBUG_MODE, CURRENT_LOG_LEVEL := CURRENT_LOG_LEVEL }

/-! ## Debug macros (lines 189-195) -/

/-- `DEBUG_PRINT(x)`: `Serial.print(x)` under `#if DEBUG_MODE`, empty otherwise. -/
def DEBUG_PRINT (b : Build) (x : String) (sink : Sink) : Sink :=
  if b.DEBUG_MODE then Serial_print x sink else sink

/-- `DEBUG_PRINTLN(x)`: `Serial.println(x)` under `#if DEBUG_MODE`, empty otherwise. -/
def DEBUG_PRINTLN (b : Build) (x : String) (sink : Sink) : Sink :=
  if b.DEBUG_MODE then Serial_println x sink else sink

/-! ## Leveled log macros (lines 198-201)

The argument `x` stands for `String(x)`, the message already converted. -/

def LOG_ERROR (b : Build) (x : String) (sink : Sink) : Sink :=
  if b.CURRENT_LOG_LEVEL ≥ LOG_LEVEL_ERROR then Serial_println ("[ERROR] " ++ x) sink else sink

def LOG_WARNING (b : Build) (x : String) (sink : Sink) : Sink :=
  if b.CURRENT_LOG_LEVEL ≥ LOG_LEVEL_WARNING then Serial_println ("[WARNING] " ++ x) sink
  else sink

def LOG_INFO (b : Build) (x : String) (sink : Sink) : Sink :=
  if b.CURRENT_LOG_LEVEL ≥ LOG_LEVEL_INFO then Serial_println ("[INFO] " ++ x) sink else sink

def LOG_DEBUG (b : Build) (x : String) (sink : Sink) : Sink :=
  if b.CURRENT_LOG_LEVEL ≥ LOG_LEVEL_DEBUG then Serial_println ("[DEBUG] " ++ x) sink else sink

/-- The four message levels. -/
inductive Level where
  | error
  | warning
  | info
  | debug
  deriving DecidableEq, Repr

/-- The `LOG_LEVEL_*` number of a message level. -/
def Level.value : Level → Int
  | .error => LOG_LEVEL_ERROR
  | .warning => LOG_LEVEL_WARNING
  | .info => LOG_LEVEL_INFO
  | .debug => LOG_LEVEL_DEBUG

/-- The string literal each log macro puts in front of the message. -/
def Level.label : Level → String
  | .error => "[ERROR] "
  | .warning => "[WARNING] "
  | .info => "[INFO] "
  | .debug => "[DEBUG] "

/-- The log macro of a message level. -/
def logMacro : Level → Build → String → Sink → Sink
  | .error => LOG_ERROR
  | .warning => LOG_WARNING
  | .info => LOG_INFO
  | .debug => LOG_DEBUG

/-- A call of the level's macro emits: it adds a write to the sink. -/
def emits (b : Build) (l : Level) (x : String) (sink : Sink) : Prop :=
  logMacro l b x sink ≠ sink

/-! ## `TIMEZONE_OFFSET` (line 140)

`#define TIMEZONE_OFFSET -3 * 3600` is an object-like macro whose
replacement list is the four tokens `-`, `3`, `*`, `3600`.  The preprocessor
substitutes tokens; the compiler then parses the result with C precedence.
Both steps are embedded: token substitution, a parser for the additive /
multiplicative / unary / primary layers of the C grammar, and an evaluator
with C integer semantics (quotient truncated toward zero, remainder with
the sign of the dividend, division by zero undefined).  Values are
mathematical integers: `int` overflow is undefined in C, and the inputs
evaluated below stay far inside the 32-bit range. -/

/-- Preprocessing tokens of an integer arithmetic expression. -/
inductive Tok where
  | num (n : Nat)
  | ident (name : String)
  | plus
  | minus
  | star
  | slash
  | percent
  | lparen
  | rparen
  deriving DecidableEq, Repr

/-- The replacement list of `TIMEZONE_OFFSET`: `-3 * 3600`. -/
def TIMEZONE_OFFSET : List Tok := [Tok.minus, Tok.num 3, Tok.star, Tok.num 3600]

/-- Macro expansion: every `TIMEZONE_OFFSET` identifier is replaced by the
replacement list, all other tokens are kept. -/
def expand : List Tok → List Tok
  | [] => []
  | Tok.ident name :: rest =>
      if name = "TIMEZONE_OFFSET" then TIMEZONE_OFFSET ++ expand rest
      else Tok.ident name :: expand rest
  | tok :: rest => tok :: expand rest

/-- The binary arithmetic operators of C. -/
inductive BinOp where
  | add
  | sub
  | mul
  | div
  | mod
  deriving DecidableEq, Repr

/-- Parsed expressions. -/
inductive Expr where
  | lit (n : Nat)
  | var (name : String)
  | neg (e : Expr)
  | bin (op : BinOp) (lhs rhs : Expr)
  deriving DecidableEq, Repr

/-- Operators of the multiplicative layer. -/
def mulOp : Tok → Option BinOp
  | Tok.star => some BinOp.mul
  | Tok.slash => some BinOp.div
  | Tok.percent => some BinOp.mod
  | _ => none

/-- Operators of the additive layer. -/
def addOp : Tok → Option BinOp
  | Tok.plus => some BinOp.add
  | Tok.minus => some BinOp.sub
  | _ => none

mutual
/-- An additive-expression: multiplicative operands joined left to right by `+` and `-`. -/
def parseAdditive : Nat → List Tok → Option (Expr × List Tok)
  | 0, _ => none
  | fuel + 1, toks =>
      match parseMultiplicative fuel toks with
      | some (lhs, rest) => parseAdditiveRest fuel lhs rest
      | none => none
/-- The operator tail of an additive-expression (left associative). -/
def parseAdditiveRest : Nat → Expr → List Tok → Option (Expr × List Tok)
  | 0, _, _ => none
  | _ + 1, lhs, [] => some (lhs, [])
  | fuel + 1, lhs, tok :: rest =>
      match addOp tok with
      | some op =>
          match parseMultiplicative fuel rest with
          | some (rhs, rest2) => parseAdditiveRest fuel (Expr.bin op lhs rhs) rest2
          | none => none
      | none => some (lhs, tok :: rest)
/-- A multiplicative-expression: unary operands joined left to right by `*`, `/`, `%`. -/
def parseMultiplicative : Nat → List Tok → Option (Expr × List Tok)
  | 0, _ => none
  | fuel + 1, toks =>
      match parseUnary fuel toks with
      | some (lhs, rest) => parseMultiplicativeRest fuel lhs rest
      | none => none
/-- The operator tail of a multiplicative-expression (left associative). -/
def parseMultiplicativeRest : Nat → Expr → List Tok → Option (Expr × List Tok)
  | 0, _, _ => none
  | _ + 1, lhs, [] => some (lhs, [])
  | fuel + 1, lhs, tok :: rest =>
      match mulOp tok with
      | some op =>
          match parseUnary fuel rest with
          | some (rhs, rest2) => parseMultiplicativeRest fuel (Expr.bin op lhs rhs) rest2
          | none => none
      | none => some (lhs, tok :: rest)
/-- A unary-expression: a constant, an identifier, a negation, or a
parenthesised expression. -/
def parseUnary : Nat → List Tok → Option (Expr × List Tok)
  | 0, _ => none
  | _ + 1, [] => none
  | _ + 1, Tok.num n :: rest => some (Expr.lit n, rest)
  | _ + 1, Tok.ident name :: rest => some (Expr.var name, rest)
  | fuel + 1, Tok.minus :: rest =>
      match parseUnary fuel rest with
      | some (e, rest2) => some (Expr.neg e, rest2)
      | none => none
  | fuel + 1, Tok.lparen :: rest =>
      match parseAdditive fuel rest with
      | some (e, Tok.rparen :: rest2) => some (e, rest2)
      | _ => none
  | _ + 1, _ :: _ => none
end

/-- Parse a whole token list as one expression. -/
def parseC (toks : List Tok) : Option Expr :=
  match parseAdditive (4 * toks.length + 4) toks with
  | some (e, []) => some e
  | _ => none

/-- C integer arithmetic on one operator; `none` where C leaves it undefined. -/
def applyOp : BinOp → Int → Int → Option Int
  | BinOp.add, a, b => some (a + b)
  | BinOp.sub, a, b => some (a - b)
  | BinOp.mul, a, b => some (a * b)
  | BinOp.div, a, b => if b = 0 then none else some (Int.tdiv a b)
  | BinOp.mod, a, b => if b = 0 then none else some (Int.tmod a b)

/-- Value of an expression when every identifier has the value `env` gives. -/
def eval (env : String → Int) : Expr → Option Int
  | Expr.lit n => some (n : Int)
  | Expr.var name => some (env name)
  | Expr.neg e => (eval env e).map (fun v => -v)
  | Expr.bin op lhs rhs =>
      match eval env lhs, eval env rhs with
      | some a, some b => applyOp op a b
      | _, _ => none

/-- Preprocess, parse and evaluate a token list in which the identifier `t`
has the value `t`. -/
def evalC (toks : List Tok) (t : Int) : Option Int :=
  match parseC (expand toks) with
  | some e => eval (fun _ => t) e
  | none => none

/-- The operator token of a binary operator. -/
def opTok : BinOp → Tok
  | BinOp.add => Tok.plus
  | BinOp.sub => Tok.minus
  | BinOp.mul => Tok.star
  | BinOp.div => Tok.slash
  | BinOp.mod => Tok.percent

/-- The tokens of `t op TIMEZONE_OFFSET`. -/
def rightUse (op : BinOp) : List Tok :=
  [Tok.ident "t", opTok op, Tok.ident "TIMEZONE_OFFSET"]

/-- The tokens of `TIMEZONE_OFFSET op t`. -/
def leftUse (op : BinOp) : List Tok :=
  [Tok.ident "TIMEZONE_OFFSET", opTok op, Tok.ident "t"]

/-- The tokens of `t op (-10800)`. -/
def rightValue (op : BinOp) : List Tok :=
  [Tok.ident "t", opTok op, Tok.lparen, Tok.minus, Tok.num 10800, Tok.rparen]

/-- The tokens of `(-10800) op t`. -/
def leftValue (op : BinOp) : List Tok :=
  [Tok.lparen, Tok.minus, Tok.num 10800, Tok.rparen, opTok op, Tok.ident "t"]

/-! ## Helper lemmas -/

theorem sink_append_ne (sink : Sink) (op : SerialOp) : sink ++ [op] ≠ sink := by
  intro h
  have := congrArg List.length h
  simp at this

theorem logMacro_eq (l : Level) (b : Build) (x : String) (sink : Sink) :
    logMacro l b x sink =
      if b.CURRENT_LOG_LEVEL ≥ l.value then sink ++ [SerialOp.println (l.label ++ x)]
      else sink := by
  cases l <;> rfl

theorem emits_iff (b : Build) (l : Level) (x : String) (sink : Sink) :
    emits b l x sink ↔ b.CURRENT_LOG_LEVEL ≥ l.value := by
  unfold emits
  rw [logMacro_eq]
  by_cases h : b.CURRENT_LOG_LEVEL ≥ l.value
  · simp [h, sink_append_ne]
  · simp [h]

theorem label_determines_level (l1 l2 : Level) (x1 x2 : String)
    (h : l1.label ++ x1 = l2.label ++ x2) : l1 = l2 := by
  have hd := congrArg String.data h
  simp only [String.data_append] at hd
  have h1 := congrArg (fun cs => cs.get? 1) hd
  cases l1 <;> cases l2 <;> first | rfl | (exfalso; revert h1; simp [Level.label])

theorem label_not_prefix (l1 l2 : Level) (hne : l1 ≠ l2) (s : String) :
    l1.label ++ s ≠ l2.label := by
  intro h
  have h2 : l1.label ++ s = l2.label ++ "" := by simpa using h
  exact hne (label_determines_level l1 l2 s "" h2)

theorem parse_rightUse (op : BinOp) :
    parseC (expand (rightUse op)) =
      match op with
      | BinOp.add | BinOp.sub =>
          some (Expr.bin op (Expr.var "t")
            (Expr.bin BinOp.mul (Expr.neg (Expr.lit 3)) (Expr.lit 3600)))
      | _ =>
          some (Expr.bin BinOp.mul (Expr.bin op (Expr.var "t") (Expr.neg (Expr.lit 3)))
            (Expr.lit 3600)) := by
  cases op <;> rfl

theorem parse_leftUse (op : BinOp) :
    parseC (expand (leftUse op)) =
      match op with
      | BinOp.add | BinOp.sub =>
          some (Expr.bin op (Expr.bin BinOp.mul (Expr.neg (Expr.lit 3)) (Expr.lit 3600))
            (Expr.var "t"))
      | _ =>
          some (Expr.bin op (Expr.bin BinOp.mul (Expr.neg (Expr.lit 3)) (Expr.lit 3600))
            (Expr.var "t")) := by
  cases op <;> rfl

theorem parse_rightValue (op : BinOp) :
    parseC (expand (rightValue op)) =
      some (Expr.bin op (Expr.var "t") (Expr.neg (Expr.lit 10800))) := by
  cases op <;> rfl

theorem parse_leftValue (op : BinOp) :
    parseC (expand (leftValue op)) =
      some (Expr.bin op (Expr.neg (Expr.lit 10800)) (Expr.var "t")) := by
  cases op <;> rfl

/-- As the left operand the macro behaves as the value -10800 under all five
operators, for every `t`. -/
theorem leftUse_eq_leftValue (op : BinOp) (t : Int) :
    evalC (leftUse op) t = evalC (leftValue op) t := by
  unfold evalC
  rw [parse_leftUse, parse_leftValue]
  cases op <;> simp [eval, applyOp]

/-- As the right operand of `+`, `-` and `*` the macro behaves as the value
-10800, for every `t`. -/
theorem rightUse_eq_rightValue (op : BinOp) (t : Int)
    (hop : op = BinOp.add ∨ op = BinOp.sub ∨ op = BinOp.mul) :
    evalC (rightUse op) t = evalC (rightValue op) t := by
  unfold evalC
  rw [parse_rightUse, parse_rightValue]
  rcases hop with h | h | h <;> subst h <;> simp [eval, applyOp]
  ring

/-- What `t / TIMEZONE_OFFSET` and `t % TIMEZONE_OFFSET` compute for every `t`. -/
theorem rightUse_div_mod (t : Int) :
    evalC (rightUse BinOp.div) t = some (Int.tdiv t (-3) * 3600) ∧
    evalC (rightUse BinOp.mod) t = some (Int.tmod t (-3) * 3600) := by
  unfold evalC
  rw [parse_rightUse, parse_rightUse]
  simp [eval, applyOp]

/-! ## Claims -/

/-- C1: for every configured level and each of the four message levels
(ERROR=0, WARNING=1, INFO=2, DEBUG=3) the level's log macro writes a line to
the sink exactly when the configured level is at least the message level, and
leaves the sink as it was otherwise; in the shipped build (level INFO) a
WARNING call writes its line and a DEBUG call writes nothing. -/
theorem log_emits_iff_level_reached :
    (LOG_LEVEL_ERROR = 0 ∧ LOG_LEVEL_WARNING = 1 ∧ LOG_LEVEL_INFO = 2 ∧ LOG_LEVEL_DEBUG = 3) ∧
    (∀ (b : Build) (l : Level) (x : String) (sink : Sink),
      ((∃ line, logMacro l b x sink = sink ++ [SerialOp.println line]) ↔
        b.CURRENT_LOG_LEVEL ≥ l.value) ∧
      (logMacro l b x sink = sink ↔ ¬ b.CURRENT_LOG_LEVEL ≥ l.value)) ∧
    (shipped.CURRENT_LOG_LEVEL = LOG_LEVEL_INFO) ∧
    (∀ (x : String) (sink : Sink),
      LOG_WARNING shipped x sink = sink ++ [SerialOp.println ("[WARNING] " ++ x)] ∧
      LOG_DEBUG shipped x sink = sink) := by
  refine ⟨⟨rfl, rfl, rfl, rfl⟩, ?_, rfl, ?_⟩
  · intro b l x sink
    rw [logMacro_eq]
    by_cases h : b.CURRENT_LOG_LEVEL ≥ l.value
    · simp [h, sink_append_ne]
    · simp only [h, if_false, iff_false, not_false_eq_true, iff_true, and_true]
      rintro ⟨line, hline⟩
      exact sink_append_ne sink _ hline.symm
  · intro x sink
    exact ⟨rfl, rfl⟩

/-- C2: with the debug switch on, `DEBUG_PRINT(x)` and `DEBUG_PRINTLN(x)` each
add their write of `x` to the sink (so the sink changes); with the switch off
both leave the sink unchanged; and this holds for every configured log level,
which neither macro reads. -/
theorem debug_print_gated_by_switch_only (c : Int) (x : String) (sink : Sink) :
    (DEBUG_PRINT { DEBUG_MODE := true, CURRENT_LOG_LEVEL := c } x sink
        = sink ++ [SerialOp.print x] ∧
      DEBUG_PRINTLN { DEBUG_MODE := true, CURRENT_LOG_LEVEL := c } x sink
        = sink ++ [SerialOp.println x]) ∧
    (DEBUG_PRINT { DEBUG_MODE := true, CURRENT_LOG_LEVEL := c } x sink ≠ sink ∧
      DEBUG_PRINTLN { DEBUG_MODE := true, CURRENT_LOG_LEVEL := c } x sink ≠ sink) ∧
    (DEBUG_PRINT { DEBUG_MODE := false, CURRENT_LOG_LEVEL := c } x sink = sink ∧
      DEBUG_PRINTLN { DEBUG_MODE := false, CURRENT_LOG_LEVEL := c } x sink = sink) ∧
    (∀ (d : Bool) (c2 : Int),
      DEBUG_PRINT { DEBUG_MODE := d, CURRENT_LOG_LEVEL := c } x sink
        = DEBUG_PRINT { DEBUG_MODE := d, CURRENT_LOG_LEVEL := c2 } x sink ∧
      DEBUG_PRINTLN { DEBUG_MODE := d, CURRENT_LOG_LEVEL := c } x sink
        = DEBUG_PRINTLN { DEBUG_MODE := d, CURRENT_LOG_LEVEL := c2 } x sink) := by
  refine ⟨⟨rfl, rfl⟩, ⟨?_, ?_⟩, ⟨rfl, rfl⟩, fun d c2 => ⟨rfl, rfl⟩⟩
  · exact sink_append_ne sink _
  · exact sink_append_ne sink _

/-- C3: the ten persisted-setting keys are pairwise distinct strings, hence
address pairwise distinct entries of the "poltrona" namespace; in particular
the price key differs from the duration key. -/
theorem keys_pairwise_distinct :
    allKeys.length = 10 ∧
    allKeys.Pairwise (fun a b => a ≠ b) ∧
    PREFERENCES_NAMESPACE = "poltrona" ∧
    (allKeys.map storeEntry).Pairwise (fun a b => a ≠ b) ∧
    KEY_PRICE ≠ KEY_DURATION ∧
    storeEntry KEY_PRICE ≠ storeEntry KEY_DURATION := by
  decide

/-- C4: `MAX_MOTOR_INTENSITY` lies in [0, 255], and `BUTTON_DEBOUNCE_TIME` and
`BUTTON_MIN_PRESS_TIME` are non-negative. -/
theorem motor_intensity_and_button_times_in_range :
    (0 ≤ MAX_MOTOR_INTENSITY ∧ MAX_MOTOR_INTENSITY ≤ 255) ∧
    0 ≤ BUTTON_DEBOUNCE_TIME ∧ 0 ≤ BUTTON_MIN_PRESS_TIME := by
  decide

/-- C5: `DEFAULT_DURATION` is 15 minutes in seconds, `DEFAULT_MASSAGE_DURATION`
is 15 minutes in milliseconds, and the second is 1000 times the first. -/
theorem default_durations_agree :
    DEFAULT_DURATION = 15 * 60 ∧
    DEFAULT_MASSAGE_DURATION = 15 * 60 * 1000 ∧
    DEFAULT_MASSAGE_DURATION = 1000 * DEFAULT_DURATION := by
  decide

/-- C6: the four levels are ordered ERROR < WARNING < INFO < DEBUG and, for a
configured level in {0,1,2,3}: `LOG_ERROR` emits; `LOG_DEBUG` emits exactly
when the configured level is `LOG_LEVEL_DEBUG`; a message that emits at level
`l` also emits at every level not above `l`; and it emits under every build
whose configured level is at least as high. -/
theorem level_filter_inclusive_threshold (b : Build) (x : String) (sink : Sink)
    (hb : 0 ≤ b.CURRENT_LOG_LEVEL ∧ b.CURRENT_LOG_LEVEL ≤ 3) :
    (LOG_LEVEL_ERROR < LOG_LEVEL_WARNING ∧ LOG_LEVEL_WARNING < LOG_LEVEL_INFO ∧
      LOG_LEVEL_INFO < LOG_LEVEL_DEBUG) ∧
    LOG_ERROR b x sink ≠ sink ∧
    (LOG_DEBUG b x sink ≠ sink ↔ b.CURRENT_LOG_LEVEL = LOG_LEVEL_DEBUG) ∧
    (∀ l l2 : Level, emits b l x sink → l2.value ≤ l.value → emits b l2 x sink) ∧
    (∀ (l : Level) (b2 : Build), emits b l x sink →
      b.CURRENT_LOG_LEVEL ≤ b2.CURRENT_LOG_LEVEL → emits b2 l x sink) := by
  obtain ⟨h0, h3⟩ := hb
  refine ⟨by decide, ?_, ?_, ?_, ?_⟩
  · exact (emits_iff b Level.error x sink).2 h0
  · have h := emits_iff b Level.debug x sink
    unfold emits logMacro at h
    rw [h]
    simp only [Level.value, LOG_LEVEL_DEBUG]
    omega
  · intro l l2 hl hle
    rw [emits_iff] at hl ⊢
    exact le_trans hle hl
  · intro l b2 hl hle
    rw [emits_iff] at hl ⊢
    exact le_trans hl hle

theorem level_filter_inclusive_threshold_witness :
    (0 ≤ shipped.CURRENT_LOG_LEVEL ∧ shipped.CURRENT_LOG_LEVEL ≤ 3) ∧
    LOG_ERROR shipped "boot" [] ≠ [] ∧
    (LOG_DEBUG shipped "boot" [] ≠ [] ↔ shipped.CURRENT_LOG_LEVEL = LOG_LEVEL_DEBUG) :=
  ⟨by decide,
   (level_filter_inclusive_threshold shipped "boot" [] (by decide)).2.1,
   (level_filter_inclusive_threshold shipped "boot" [] (by decide)).2.2.1⟩

/-- C7: a leveled log call that emits adds exactly one line to the sink, whose
text is the level's label ("[ERROR] ", "[WARNING] ", "[INFO] ", "[DEBUG] ")
followed by the message; the four labels are pairwise distinct, none is a
prefix of another, and the text of an emitted line determines its level. -/
theorem log_line_is_label_then_message (b : Build) (l : Level) (x : String) (sink : Sink)
    (h : emits b l x sink) :
    logMacro l b x sink = sink ++ [SerialOp.println (l.label ++ x)] ∧
    (Level.error.label = "[ERROR] " ∧ Level.warning.label = "[WARNING] " ∧
      Level.info.label = "[INFO] " ∧ Level.debug.label = "[DEBUG] ") ∧
    (∀ l1 l2 : Level, l1 ≠ l2 → l1.label ≠ l2.label ∧ ∀ s : String, l1.label ++ s ≠ l2.label) ∧
    (∀ (b2 : Build) (l2 : Level) (x2 : String) (sink2 : Sink), emits b2 l2 x2 sink2 →
      (logMacro l2 b2 x2 sink2).getLast? = (logMacro l b x sink).getLast? → l2 = l) := by
  have hline : ∀ (b1 : Build) (l1 : Level) (x1 : String) (s1 : Sink), emits b1 l1 x1 s1 →
      logMacro l1 b1 x1 s1 = s1 ++ [SerialOp.println (l1.label ++ x1)] := by
    intro b1 l1 x1 s1 h1
    rw [emits_iff] at h1
    rw [logMacro_eq, if_pos h1]
  refine ⟨hline b l x sink h, ⟨rfl, rfl, rfl, rfl⟩, ?_, ?_⟩
  · intro l1 l2 hne
    refine ⟨?_, label_not_prefix l1 l2 hne⟩
    intro heq
    exact label_not_prefix l1 l2 hne "" (by simpa using heq)
  · intro b2 l2 x2 sink2 h2 hlast
    rw [hline b l x sink h, hline b2 l2 x2 sink2 h2] at hlast
    simp only [List.getLast?_append, List.getLast?_singleton, Option.or,
      Option.some.injEq, SerialOp.println.injEq] at hlast
    exact label_determines_level l2 l x2 x hlast

theorem log_line_is_label_then_message_witness :
    emits shipped Level.info "ready" [] ∧
    logMacro Level.info shipped "ready" [] = [SerialOp.println "[INFO] ready"] :=
  ⟨by unfold emits; decide,
   (log_line_is_label_then_message shipped Level.info "ready" []
     (by unfold emits; decide)).1⟩

/-- C8 (evaluation of the header): `MASSAGE_MOTOR_1_PIN` and `LED_STATUS_PIN`
are both GPIO 2, so the seven pin assignments are not pairwise distinct; this
is the only pair of peripherals that shares a pin. -/
theorem motor1_and_status_led_share_pin :
    MASSAGE_MOTOR_1_PIN = 2 ∧ LED_STATUS_PIN = 2 ∧
    pinOf Peripheral.motor1 = pinOf Peripheral.statusLed ∧
    ¬ allPins.Pairwise (fun a b => a ≠ b) ∧
    (∀ p q : Peripheral, p ≠ q → pinOf p = pinOf q →
      (p = Peripheral.motor1 ∧ q = Peripheral.statusLed) ∨
      (p = Peripheral.statusLed ∧ q = Peripheral.motor1)) := by
  refine ⟨rfl, rfl, rfl, by decide, ?_⟩
  intro p q
  cases p <;> cases q <;> decide

/-- C9 (evaluation of the header): after macro expansion `t / TIMEZONE_OFFSET`
is `t / -3 * 3600`, which C parses as `(t / -3) * 3600`; at `t = 10800` it is
-12960000 while `t / (-10800)` is -1.  Likewise `t % TIMEZONE_OFFSET` at
`t = 1` is 3600 while `t % (-10800)` is 1. -/
theorem timezone_offset_right_operand_diverges :
    expand (rightUse BinOp.div)
      = [Tok.ident "t", Tok.slash, Tok.minus, Tok.num 3, Tok.star, Tok.num 3600] ∧
    evalC (rightUse BinOp.div) 10800 = some (-12960000) ∧
    evalC (rightValue BinOp.div) 10800 = some (-1) ∧
    evalC (rightUse BinOp.mod) 1 = some 3600 ∧
    evalC (rightValue BinOp.mod) 1 = some 1 := by
  decide

/-- C10: the LED blink periods are strictly positive and ordered
`LED_BLINK_FAST < LED_BLINK_NORMAL < LED_BLINK_SLOW`, hence pairwise distinct. -/
theorem led_blink_periods_ordered :
    (0 < LED_BLINK_FAST ∧ 0 < LED_BLINK_NORMAL ∧ 0 < LED_BLINK_SLOW) ∧
    (LED_BLINK_FAST < LED_BLINK_NORMAL ∧ LED_BLINK_NORMAL < LED_BLINK_SLOW) ∧
    (LED_BLINK_FAST ≠ LED_BLINK_NORMAL ∧ LED_BLINK_NORMAL ≠ LED_BLINK_SLOW ∧
      LED_BLINK_FAST ≠ LED_BLINK_SLOW) := by
  decide

end Config
